import Mathlib

/-!
Verification development for the execution-isolation harness in
`src/evaluation/utils_execute.py`.

The Python module defines:
* `WriteOnlyStringIO`, `redirect_stdin`, `swallow_io` — output suppression;
* `create_tempdir`, `chdir` — working-directory sandbox;
* `reliability_guard` — capability restriction;
* `unsafe_execute` — the execution worker (try / exec / except classification);
* `check_correctness` — the supervisor (process + timer + result channel).

The embedding below translates each of these from the source.  `exec(code)`
itself is interpreter behaviour not implemented in this repository, so the
exec step is an oracle: its terminal outcome (`ExecOutcome`) together with
the sequence of entries the untrusted text itself appended to the shared
result list during the step (possible because the bare `exec(code)` runs
with `unsafe_execute`'s own globals and locals, which contain the `result`
proxy).  Everything the harness does around that call is translated
statement by statement.
-/

namespace UtilsExecute

/-- Python `code.split('\n')` on the character list: splits at every newline
character and keeps empty parts, so a text with `k` newlines yields `k + 1`
parts. -/
def splitNl : List Char → List (List Char)
  | [] => [[]]
  | c :: rest =>
    let r := splitNl rest
    if c = '\n' then [] :: r
    else
      match r with
      | [] => [[c]]
      | h :: t => (c :: h) :: t

/-- The line list of a program text, as computed by `code.split('\n')` in
`unsafe_execute`. -/
def pyLines (code : String) : List String :=
  (splitNl code.data).map (fun l => String.mk l)

/-- Python list indexing `lst[i]` with an `int` index: nonnegative indexes from
the front, negative indexes from the back (`lst[len + i]`), and an index out of
range raises `IndexError` (modelled as `none`). -/
def pyIndex (l : List String) (i : Int) : Option String :=
  let j : Int := if i < 0 then i + l.length else i
  if 0 ≤ j ∧ j < l.length then l.get? j.toNat else none

/-- `"failed: {} at line {}: {}".format(error_class, line_number, detail)`. -/
def failedMsg (errorClass : String) (lineNumber : Int) (detail : String) : String :=
  "failed: " ++ errorClass ++ " at line " ++ toString lineNumber ++ ": " ++ detail

/-- `"Offending line: {}".format(line)`. -/
def offendingMsg (line : String) : String :=
  "Offending line: " ++ line

/-- Terminal outcome of a single `exec(code)` call — the oracle for the opaque
interpreter step inside `unsafe_execute`:

* `ok` — `exec` returned normally;
* `syntaxError cls lineno msg` — `exec` raised a `SyntaxError` (or subclass,
  `cls = e.__class__.__name__`) with `e.lineno = lineno` and `e.args[0] = msg`;
  untrusted code may also `raise` a crafted `SyntaxError`, so `lineno` ranges
  over all integers;
* `runtimeError cls ln detail` — `exec` raised some other `Exception`, where
  `cls = e.__class__.__name__`, `detail = str(e)` and `ln` is the line of the
  deepest traceback frame (`traceback.extract_tb(tb)[-1][1]`);
* `baseError` — `exec` raised a `BaseException` that is not an `Exception`
  (e.g. `SystemExit` from `raise SystemExit`, or `KeyboardInterrupt`), which
  matches neither `except SyntaxError` nor `except Exception`. -/
inductive ExecOutcome where
  | ok : ExecOutcome
  | syntaxError (errorClass : String) (lineno : Int) (msg : String) : ExecOutcome
  | runtimeError (errorClass : String) (lineNumber : Int) (detail : String) : ExecOutcome
  | baseError : ExecOutcome
deriving DecidableEq

/-- Primitive observable effects the worker body can perform, in program
order.  `append` is a `result.append(...)` executed by `unsafe_execute`'s own
handler code; `execAppend` is a `result.append(...)` executed by the
*untrusted text* during the `exec(code)` step — possible because the bare
`exec(code)` call runs with `unsafe_execute`'s own locals, which contain the
`result` list proxy.  Both reach the same shared channel.  The remaining
constructors exist so that the presence or absence of the sandbox-related
calls in the worker is a statement about its action trace. -/
inductive Action where
  | callReliabilityGuard : Action
  | enterCreateTempdir : Action
  | enterSwallowScope : Action
  | execCode : Action
  | append (entry : String) : Action
  | execAppend (entry : String) : Action
deriving DecidableEq

/-- What one invocation of the worker did: its effect trace and whether an
exception escaped `unsafe_execute` uncaught. -/
structure WorkerRun where
  actions : List Action
  uncaught : Bool
deriving DecidableEq

/-- The entries appended to the shared result list, in order — by whichever
side performed them (untrusted `execAppend` writes and harness `append`
writes land on the same `manager.list()`). -/
def resultOf (w : WorkerRun) : List String :=
  w.actions.filterMap (fun a =>
    match a with
    | .append s => some s
    | .execAppend s => some s
    | _ => none)

/-- The entries appended by `unsafe_execute`'s own handler code only (the
`result.append(...)` statements at source lines 130, 135–136 and 142–144),
excluding whatever the untrusted text itself planted during `exec`. -/
def harnessAppends (w : WorkerRun) : List String :=
  w.actions.filterMap (fun a =>
    match a with
    | .append s => some s
    | _ => none)

/-- Translation of `unsafe_execute(code, result, timeout)` (source lines
127–144), given the oracle of the `exec(code)` step.  The body is exactly
`try: exec(code); result.append("passed")` with the two `except` clauses; it
calls none of `reliability_guard`, `create_tempdir`, `swallow_io`.

The `exec(code)` step is the oracle pair `(planted, outcome)`: since the bare
`exec` runs the text with `unsafe_execute`'s own globals and locals, the
untrusted text can reach the `result` proxy through those locals and call
`result.append` itself — `planted` is the sequence of entries it appended
during the `exec` step, in order, before the step's terminal `outcome`.  A
non-tampering program has `planted = []`.

In the `SyntaxError` clause the indexing `code.split('\n')[line_number - 1]`
is unguarded, so an out-of-range `lineno` raises an uncaught `IndexError`
after the first handler entry was already appended (`uncaught := true`).  In
the generic `Exception` clause the same indexing is guarded by
`line_number <= len(code.split('\n'))`, which still admits Python's negative
indexing for `line_number ≤ 0`.  A `baseError` outcome matches no handler and
escapes with no handler entry appended. -/
def unsafe_execute (code : String) (planted : List String) (outcome : ExecOutcome) : WorkerRun :=
  let execActs := fun tail => Action.execCode :: (planted.map Action.execAppend ++ tail)
  match outcome with
  | .ok => ⟨execActs [.append "passed"], false⟩
  | .syntaxError errorClass lineno msg =>
    let lines := pyLines code
    let first := failedMsg errorClass lineno msg
    match pyIndex lines (lineno - 1) with
    | some line => ⟨execActs [.append first, .append (offendingMsg line)], false⟩
    | none => ⟨execActs [.append first], true⟩
  | .runtimeError errorClass lineNumber detail =>
    let lines := pyLines code
    let first := failedMsg errorClass lineNumber detail
    if lineNumber ≤ (lines.length : Int) then
      match pyIndex lines (lineNumber - 1) with
      | some line => ⟨execActs [.append first, .append (offendingMsg line)], false⟩
      | none => ⟨execActs [.append first], true⟩
    else ⟨execActs [.append first], false⟩
  | .baseError => ⟨execActs [], true⟩

/-- Worker fate as seen from the supervisor: `none` means the worker process
ran `unsafe_execute` to completion before `p.join()` returned; `some k` means
it was stopped early (timer `p.terminate()`, or a crash) after only the first
`k` of the run's appends had reached the shared `manager.list()`. -/
def workerChannel (code : String) (planted : List String) (outcome : ExecOutcome)
    (fate : Option Nat) : List String :=
  match fate with
  | none => resultOf (unsafe_execute code planted outcome)
  | some k => (resultOf (unsafe_execute code planted outcome)).take k

/-- Observable behaviour of one `check_correctness` call: the result list
after the timed-out default, the print events the harness itself emits on its
own stdout, and the returned boolean. -/
structure CheckRun where
  result : List String
  printed : List (List String)
  verdict : Bool
deriving DecidableEq

/-- Translation of `check_correctness(check_program, timeout=3)` (source lines
147–166).  Process spawning, the `Timer`, `join` and `cancel` are concurrency
and are summarised by `fate`; after the join the source runs
`if not result: result.append("timed out")`, then `print(result)` (one print
event carrying the result list), then returns `result[0] == "passed"`
(`result` is nonempty at that point, so `result[0]` is its head). -/
def check_correctness (code : String) (planted : List String) (outcome : ExecOutcome)
    (fate : Option Nat) : CheckRun :=
  let chan := workerChannel code planted outcome fate
  let result := if chan.isEmpty then ["timed out"] else chan
  { result := result
    printed := [result]
    verdict := result.headD "" == "passed" }

/-! ### Output Suppressor (`WriteOnlyStringIO`, `redirect_stdin`, `swallow_io`) -/

/-- Translation of `class WriteOnlyStringIO(io.StringIO)` (source lines
18–29): an in-memory string buffer. -/
structure WriteOnlyStringIO where
  buffer : String
deriving DecidableEq

/-- The `OSError` raised by the read methods. -/
inductive PyExc where
  | oserror : PyExc
deriving DecidableEq

/-- `def read(self, *args, **kwargs): raise OSError`. -/
def WriteOnlyStringIO.read (s : WriteOnlyStringIO) : Except PyExc String :=
  .error .oserror

/-- `def readline(self, *args, **kwargs): raise OSError`. -/
def WriteOnlyStringIO.readline (s : WriteOnlyStringIO) : Except PyExc String :=
  .error .oserror

/-- `def readlines(self, *args, **kwargs): raise OSError`. -/
def WriteOnlyStringIO.readlines (s : WriteOnlyStringIO) : Except PyExc (List String) :=
  .error .oserror

/-- `def readable(self, *args, **kwargs): return False`. -/
def WriteOnlyStringIO.readable (s : WriteOnlyStringIO) : Bool :=
  false

/-- The inherited `io.StringIO.write`: appends to the in-memory buffer and
returns the number of characters written — the write is accepted. -/
def WriteOnlyStringIO.write (s : WriteOnlyStringIO) (t : String) : WriteOnlyStringIO × Nat :=
  (⟨s.buffer ++ t⟩, t.length)

/-- Where one of the three standard channels currently points: an original
OS-backed stream, or the suppressor buffer (the one `WriteOnlyStringIO`
instance that `swallow_io` creates and never hands to the wrapped code). -/
inductive StreamTarget where
  | real (name : String) : StreamTarget
  | buffer : StreamTarget
deriving DecidableEq

/-- The process-global `sys.stdout` / `sys.stderr` / `sys.stdin` bindings. -/
structure Chans where
  stdout : StreamTarget
  stderr : StreamTarget
  stdin : StreamTarget
deriving DecidableEq

/-- `contextlib.redirect_stdout(new)` run around a body: saves the old
binding on enter, sets the new one, and on exit — whether or not the body
signalled an exception (the `Bool` it returns) — restores the saved binding
and lets the exception flag propagate. -/
def redirect_stdout_run (new : StreamTarget) (c : Chans) (body : Chans → Chans × Bool) : Chans × Bool :=
  let old := c.stdout
  let r := body { c with stdout := new }
  ({ r.1 with stdout := old }, r.2)

/-- `contextlib.redirect_stderr(new)` run around a body. -/
def redirect_stderr_run (new : StreamTarget) (c : Chans) (body : Chans → Chans × Bool) : Chans × Bool :=
  let old := c.stderr
  let r := body { c with stderr := new }
  ({ r.1 with stderr := old }, r.2)

/-- `class redirect_stdin(contextlib._RedirectStream): _stream = "stdin"`
(source lines 32–33), run around a body. -/
def redirect_stdin_run (new : StreamTarget) (c : Chans) (body : Chans → Chans × Bool) : Chans × Bool :=
  let old := c.stdin
  let r := body { c with stdin := new }
  ({ r.1 with stdin := old }, r.2)

/-- Translation of `swallow_io()` (source lines 58–64): create one
`WriteOnlyStringIO` stream and nest `redirect_stdout`, `redirect_stderr`,
`redirect_stdin` around the yield, all pointing at that stream. -/
def swallow_io_run (c : Chans) (body : Chans → Chans × Bool) : Chans × Bool :=
  redirect_stdout_run .buffer c (fun c1 =>
    redirect_stderr_run .buffer c1 (fun c2 =>
      redirect_stdin_run .buffer c2 body))

/-! ### Working-Directory Sandbox (`create_tempdir`, `chdir`) -/

/-- The process-visible filesystem state the sandbox touches: the current
working directory and which directories exist. -/
structure FS where
  cwd : String
  dirExists : String → Bool

/-- Translation of the `chdir(root)` context manager (source lines 43–55)
run around a body: if `root == "."` it yields with no change and no restore;
otherwise it saves `os.getcwd()`, does `os.chdir(root)`, re-raises any
exception of the body unchanged, and in the `finally` block restores the
saved directory — regardless of what the body did to the state. -/
def chdir_run (root : String) (st : FS) (body : FS → FS × Bool) : FS × Bool :=
  if root = "." then body st
  else
    let cwd := st.cwd
    let r := body { st with cwd := root }
    ({ r.1 with cwd := cwd }, r.2)

/-- `tempfile.TemporaryDirectory()` run around a body: creates the (fresh,
uniquely named) directory `fresh`, hands its name to the body, and on exit —
success or exception — deletes it recursively. -/
def temporaryDirectory_run (fresh : String) (st : FS) (body : String → FS → FS × Bool) : FS × Bool :=
  let st1 : FS := { st with dirExists := fun d => if d = fresh then true else st.dirExists d }
  let r := body fresh st1
  ({ r.1 with dirExists := fun d => if d = fresh then false else r.1.dirExists d }, r.2)

/-- Translation of `create_tempdir()` (source lines 36–40): enter
`tempfile.TemporaryDirectory()` to obtain `dirname`, then enter
`chdir(dirname)`, then yield `dirname` to the body. -/
def create_tempdir_run (fresh : String) (st : FS) (body : String → FS → FS × Bool) : FS × Bool :=
  temporaryDirectory_run fresh st (fun dirname st1 => chdir_run dirname st1 (body dirname))

/-- A sample filesystem state used to instantiate theorems with hypotheses. -/
def sampleFS : FS :=
  { cwd := "/root", dirExists := fun _ => false }

/-- A sample body that both moves the current directory and signals an
exception, exercising the restore-on-failure path. -/
def sampleBody : String → FS → FS × Bool :=
  fun _ st => ({ st with cwd := "/elsewhere" }, true)

/-! ### The namespaces `exec(code)` actually runs in (for the implicit claim
about `exec` using the enclosing function's scopes)

`unsafe_execute` calls `exec(code)` with neither a globals nor a locals
argument, so the compiled text runs with the *caller's* `globals()` (the
harness module namespace) and `locals()` (the function's local namespace).
Top-level `def` statements of the text then bind names in the locals mapping,
while a function object's `__globals__` is the globals mapping — so a
top-level function of the text cannot see its sibling definitions when its
body runs.  A standalone program (or `exec(code, {})`) uses one fresh mapping
as both, and sibling calls resolve.  The fragment below models exactly the
name-binding and name-resolution rules needed to witness that divergence. -/

/-- A function object of the modelled fragment: its body optionally calls one
global name and returns. -/
structure PyFun where
  callee : Option String
deriving DecidableEq

/-- A Python namespace mapping (insertion at the front shadows). -/
abbrev NameSpc := List (String × PyFun)

/-- Dictionary lookup. -/
def nsLookup (ns : NameSpc) (n : String) : Option PyFun :=
  match ns.find? (fun p => p.1 == n) with
  | some p => some p.2
  | none => none

/-- Calling a function object: names in its body resolve in the function's
`__globals__` mapping (never in the namespace its `def` executed in); a miss
raises `NameError`.  `fuel` bounds the call depth. -/
def callFun (globalsNs : NameSpc) : Nat → PyFun → Except String Unit
  | 0, _ => .error "RecursionError"
  | fuel + 1, f =>
    match f.callee with
    | none => .ok ()
    | some g =>
      match nsLookup globalsNs g with
      | some fg => callFun globalsNs fuel fg
      | none => .error "NameError"

/-- How the program text is being run: `callerScopes` is `exec(code)` as in
`unsafe_execute` (distinct globals and locals mappings of the enclosing
call); `freshModule` is a standalone module run, where a single fresh mapping
serves as both. -/
inductive ExecMode where
  | callerScopes : ExecMode
  | freshModule : ExecMode
deriving DecidableEq

/-- The pair of mappings `exec` was given.  In `freshModule` mode the two
fields model the *same* dictionary, so both are updated together. -/
structure ExecState where
  globalsNs : NameSpc
  localsNs : NameSpc
deriving DecidableEq

/-- One top-level statement of the modelled text. -/
inductive Stmt where
  | defFn (name : String) (callee : Option String) : Stmt
  | callFn (name : String) : Stmt
deriving DecidableEq

/-- Top-level name load during `exec`: locals first, then globals. -/
def loadName (st : ExecState) (n : String) : Option PyFun :=
  match nsLookup st.localsNs n with
  | some f => some f
  | none => nsLookup st.globalsNs n

/-- Executing one top-level statement: a `def` binds in the locals mapping
(in `freshModule` mode the single dictionary is both mappings); a call loads
the name and runs the function with the globals mapping as its
`__globals__`. -/
def execStmt (mode : ExecMode) (fuel : Nat) (st : ExecState) : Stmt → Except String ExecState
  | .defFn n c =>
    match mode with
    | .callerScopes => .ok { st with localsNs := (n, ⟨c⟩) :: st.localsNs }
    | .freshModule => .ok ⟨(n, ⟨c⟩) :: st.globalsNs, (n, ⟨c⟩) :: st.localsNs⟩
  | .callFn n =>
    match loadName st n with
    | some f => (callFun st.globalsNs fuel f).map (fun _ => st)
    | none => .error "NameError"

/-- Running a sequence of top-level statements, stopping at the first
uncaught error. -/
def runProgram (mode : ExecMode) (fuel : Nat) (st : ExecState) : List Stmt → Except String Unit
  | [] => .ok ()
  | s :: rest =>
    match execStmt mode fuel st s with
    | .ok st2 => runProgram mode fuel st2 rest
    | .error e => .error e

/-- The modelled statements of `nestedCallText`: define `g`, define `f` whose
body calls `g`, then call `f`. -/
def nestedCallProgram : List Stmt :=
  [.defFn "g" none, .defFn "f" (some "g"), .callFn "f"]

/-- The concrete program text whose mini-model is `nestedCallProgram`:

```
def g():
    return 1

def f():
    return g()

f()
```

Run standalone it passes; under `exec(code)` inside `unsafe_execute`, calling
`f()` raises `NameError` at line 5 (`    return g()`), because `g` was bound
in the caller's locals while `f.__globals__` is the harness module
namespace. -/
def nestedCallText : String :=
  "def g():\n    return 1\n\ndef f():\n    return g()\n\nf()"

/-- First character of a string, used to separate the harness's result-entry
formats from one another. -/
def strHead (s : String) : Option Char :=
  s.data.head?

/-! ## Helper lemmas -/

/-- The exec step's channel writes sit at the front of the run's appended
entries. -/
theorem resultOf_exec_front (l : List String) (t : List Action) (u : Bool) :
    resultOf ⟨Action.execCode :: (l.map Action.execAppend ++ t), u⟩ =
      l ++ resultOf ⟨t, u⟩ := by
  induction l with
  | nil => simp [resultOf]
  | cons a t2 ih =>
    simp only [resultOf, List.map_cons, List.cons_append, List.filterMap_cons] at ih ⊢
    simpa using ih

/-- The exec step contributes nothing to the worker's own handler appends. -/
theorem harnessAppends_exec_front (l : List String) (t : List Action) (u : Bool) :
    harnessAppends ⟨Action.execCode :: (l.map Action.execAppend ++ t), u⟩ =
      harnessAppends ⟨t, u⟩ := by
  induction l with
  | nil => simp [harnessAppends]
  | cons a t2 ih =>
    simp only [harnessAppends, List.map_cons, List.cons_append, List.filterMap_cons] at ih ⊢
    simpa using ih

/-- Channel decomposition: what reaches the result list is the untrusted
text's planted entries followed by the worker's own handler appends. -/
theorem resultOf_decomp (code : String) (planted : List String) (outcome : ExecOutcome) :
    resultOf (unsafe_execute code planted outcome) =
      planted ++ harnessAppends (unsafe_execute code planted outcome) := by
  cases outcome with
  | ok =>
    simp only [unsafe_execute]
    rw [resultOf_exec_front, harnessAppends_exec_front]
    rfl
  | syntaxError c n m =>
    cases h : pyIndex (pyLines code) (n - 1) <;>
      (simp only [unsafe_execute, h]; rw [resultOf_exec_front, harnessAppends_exec_front]; rfl)
  | runtimeError c n d =>
    by_cases hle : n ≤ ((pyLines code).length : Int)
    · cases h : pyIndex (pyLines code) (n - 1) <;>
        (simp only [unsafe_execute, h]; rw [if_pos hle, resultOf_exec_front, harnessAppends_exec_front]; rfl)
    · simp only [unsafe_execute]
      rw [if_neg hle, resultOf_exec_front, harnessAppends_exec_front]
      rfl
  | baseError =>
    simp only [unsafe_execute]
    rw [resultOf_exec_front, harnessAppends_exec_front]
    rfl

/-- The worker's own handler code appends at most two entries. -/
theorem harnessAppends_length (code : String) (planted : List String) (outcome : ExecOutcome) :
    (harnessAppends (unsafe_execute code planted outcome)).length ≤ 2 := by
  cases outcome with
  | ok =>
    simp only [unsafe_execute]
    rw [harnessAppends_exec_front]
    simp [harnessAppends]
  | syntaxError c n m =>
    cases h : pyIndex (pyLines code) (n - 1) <;>
      (simp only [unsafe_execute, h]; rw [harnessAppends_exec_front]; simp [harnessAppends])
  | runtimeError c n d =>
    by_cases hle : n ≤ ((pyLines code).length : Int)
    · cases h : pyIndex (pyLines code) (n - 1) <;>
        (simp only [unsafe_execute, h]; rw [if_pos hle, harnessAppends_exec_front]; simp [harnessAppends])
    · simp only [unsafe_execute]
      rw [if_neg hle, harnessAppends_exec_front]
      simp [harnessAppends]
  | baseError =>
    simp only [unsafe_execute]
    rw [harnessAppends_exec_front]
    simp [harnessAppends]

theorem strHead_append (s t : String) (c : Char) (h : strHead s = some c) :
    strHead (s ++ t) = some c := by
  unfold strHead at h ⊢
  rw [String.data_append]
  cases hs : s.data with
  | nil => rw [hs] at h; simp at h
  | cons a as =>
    rw [hs] at h
    rw [List.cons_append]
    simpa using h

theorem strHead_failedMsg (c : String) (n : Int) (d : String) :
    strHead (failedMsg c n d) = some 'f' := by
  unfold failedMsg
  apply strHead_append
  apply strHead_append
  apply strHead_append
  apply strHead_append
  apply strHead_append
  rfl

theorem strHead_offendingMsg (l : String) :
    strHead (offendingMsg l) = some 'O' := by
  unfold offendingMsg
  apply strHead_append
  rfl

theorem ne_of_strHead_ne (s t : String) (h : strHead s ≠ strHead t) : s ≠ t :=
  fun e => h (by rw [e])

theorem failedMsg_ne_passed (c : String) (n : Int) (d : String) :
    failedMsg c n d ≠ "passed" := by
  apply ne_of_strHead_ne
  rw [strHead_failedMsg]
  decide

theorem offendingMsg_ne_passed (l : String) :
    offendingMsg l ≠ "passed" := by
  apply ne_of_strHead_ne
  rw [strHead_offendingMsg]
  decide

theorem failedMsg_ne_offendingMsg (c : String) (n : Int) (d l : String) :
    failedMsg c n d ≠ offendingMsg l := by
  apply ne_of_strHead_ne
  rw [strHead_failedMsg, strHead_offendingMsg]
  decide

/-- For a run in which the untrusted text planted nothing, the result list
is either exactly `["passed"]` or contains no entry equal to `"passed"`. -/
theorem resultOf_shape (code : String) (outcome : ExecOutcome) :
    resultOf (unsafe_execute code [] outcome) = ["passed"] ∨
    ∀ s ∈ resultOf (unsafe_execute code [] outcome), s ≠ "passed" := by
  cases outcome with
  | ok => left; rfl
  | syntaxError c n m =>
    right
    cases h : pyIndex (pyLines code) (n - 1) with
    | some line =>
      simp [unsafe_execute, resultOf, h]
      exact ⟨failedMsg_ne_passed c n m, offendingMsg_ne_passed line⟩
    | none =>
      simp [unsafe_execute, resultOf, h]
      exact failedMsg_ne_passed c n m
  | runtimeError c n d =>
    right
    by_cases hle : n ≤ ((pyLines code).length : Int)
    · cases h : pyIndex (pyLines code) (n - 1) with
      | some line =>
        simp [unsafe_execute, resultOf, h, hle]
        exact ⟨failedMsg_ne_passed c n d, offendingMsg_ne_passed line⟩
      | none =>
        simp [unsafe_execute, resultOf, h, hle]
        exact failedMsg_ne_passed c n d
    · simp [unsafe_execute, resultOf, hle]
      exact failedMsg_ne_passed c n d
  | baseError =>
    right
    simp [unsafe_execute, resultOf]

theorem channel_sub (code : String) (planted : List String) (outcome : ExecOutcome)
    (fate : Option Nat) :
    ∀ s ∈ workerChannel code planted outcome fate,
      s ∈ resultOf (unsafe_execute code planted outcome) := by
  intro s hs
  cases fate with
  | none => exact hs
  | some k => exact List.take_subset k _ hs

theorem channel_head (code : String) (outcome : ExecOutcome) (fate : Option Nat)
    (hmem : "passed" ∈ workerChannel code [] outcome fate) :
    (workerChannel code [] outcome fate).headD "" = "passed" := by
  rcases resultOf_shape code outcome with hpass | hne
  · cases fate with
    | none => simp [workerChannel, hpass]
    | some k =>
      cases k with
      | zero => simp [workerChannel, hpass] at hmem
      | succ k2 => simp [workerChannel, hpass]
  · exact absurd rfl (hne _ (channel_sub code [] outcome fate _ hmem))

theorem verdict_spec (chan : List String)
    (hhead : "passed" ∈ chan → chan.headD "" = "passed") :
    (((if chan.isEmpty then ["timed out"] else chan).headD "" == "passed") = true) ↔
      "passed" ∈ chan := by
  cases chan with
  | nil =>
    simp
  | cons a l =>
    simp only [List.isEmpty_cons, if_neg Bool.false_ne_true, List.headD_cons]
    constructor
    · intro h
      have ha : a = "passed" := by simpa using h
      rw [ha]
      exact List.mem_cons_self _ _
    · intro h
      have := hhead h
      simp only [List.headD_cons] at this
      simp [this]

theorem pyIndex_in_range (l : List String) (ln : Int) (h1 : 1 ≤ ln) (h2 : ln ≤ (l.length : Int)) :
    ∃ line, pyIndex l (ln - 1) = some line := by
  have hk : (ln - 1).toNat < l.length := by omega
  refine ⟨l.get ⟨(ln - 1).toNat, hk⟩, ?_⟩
  simp only [pyIndex]
  rw [if_neg (by omega : ¬ (ln - 1 < 0)), if_pos ⟨by omega, by omega⟩]
  exact List.get?_eq_get hk

theorem pyIndex_above_range (l : List String) (ln : Int) (h2 : (l.length : Int) < ln) :
    pyIndex l (ln - 1) = none := by
  simp only [pyIndex]
  rw [if_neg (by omega : ¬ (ln - 1 < 0)), if_neg (by omega)]

/-- Claim C1 (code_bug evidence): for every program text, every sequence of
entries the untrusted text plants on the channel during `exec`, and every
exec outcome, `unsafe_execute` applies `reliability_guard` zero times — not
exactly once before the untrusted code — while still executing the untrusted
code.  The capability restrictor defined at source lines 67–124 is never
called from the worker at lines 127–144. -/
theorem guard_never_applied (code : String) (planted : List String) (outcome : ExecOutcome) :
    (unsafe_execute code planted outcome).actions.count Action.callReliabilityGuard = 0 ∧
    Action.execCode ∈ (unsafe_execute code planted outcome).actions := by
  refine ⟨List.count_eq_zero.mpr ?_, ?_⟩ <;>
  · cases outcome with
    | ok => simp [unsafe_execute]
    | syntaxError c n m =>
      cases h : pyIndex (pyLines code) (n - 1) <;> simp [unsafe_execute, h]
    | runtimeError c n d =>
      by_cases hle : n ≤ ((pyLines code).length : Int)
      · cases h : pyIndex (pyLines code) (n - 1) <;> simp [unsafe_execute, h, hle]
      · simp [unsafe_execute, hle]
    | baseError => simp [unsafe_execute]

/-- Claim C2 (code_bug evidence): for every program text, every planted
sequence and every exec outcome, `unsafe_execute` runs `exec(code)` without
ever entering the working-directory sandbox (`create_tempdir`) or the output
suppressor (`swallow_io`): both scope entries are absent from its action
trace while the exec step is present. -/
theorem exec_outside_sandbox_scopes (code : String) (planted : List String)
    (outcome : ExecOutcome) :
    Action.enterCreateTempdir ∉ (unsafe_execute code planted outcome).actions ∧
    Action.enterSwallowScope ∉ (unsafe_execute code planted outcome).actions ∧
    Action.execCode ∈ (unsafe_execute code planted outcome).actions := by
  refine ⟨?_, ?_, ?_⟩ <;>
  · cases outcome with
    | ok => simp [unsafe_execute]
    | syntaxError c n m =>
      cases h : pyIndex (pyLines code) (n - 1) <;> simp [unsafe_execute, h]
    | runtimeError c n d =>
      by_cases hle : n ≤ ((pyLines code).length : Int)
      · cases h : pyIndex (pyLines code) (n - 1) <;> simp [unsafe_execute, h, hle]
      · simp [unsafe_execute, hle]
    | baseError => simp [unsafe_execute]

/-- Claim C3 (code_bug evidence): the ExecutionResult is not the only
observable output of `check_correctness`: the harness always performs the
`print(result)` at source line 164 (one print event, so `printed` is never
empty), and the worker never activates the output suppressor, so text emitted
by the executed program reaches the inherited stdout/stderr instead of being
discarded — for every planted sequence and outcome alike. -/
theorem harness_prints_and_output_not_suppressed (code : String) (planted : List String)
    (outcome : ExecOutcome) (fate : Option Nat) :
    (check_correctness code planted outcome fate).printed =
      [(check_correctness code planted outcome fate).result] ∧
    (check_correctness code planted outcome fate).printed ≠ [] ∧
    Action.enterSwallowScope ∉ (unsafe_execute code planted outcome).actions := by
  refine ⟨rfl, by simp [check_correctness], ?_⟩
  cases outcome with
  | ok => simp [unsafe_execute]
  | syntaxError c n m =>
    cases h : pyIndex (pyLines code) (n - 1) <;> simp [unsafe_execute, h]
  | runtimeError c n d =>
    by_cases hle : n ≤ ((pyLines code).length : Int)
    · cases h : pyIndex (pyLines code) (n - 1) <;> simp [unsafe_execute, h, hle]
    · simp [unsafe_execute, hle]
  | baseError => simp [unsafe_execute]

/-- Claim C4 counterexample: the untrusted text reaches the `result` proxy
through `exec`'s shared locals, so the three-line program
`result.append("a")` / `result.append("b")` / `result.append("c")` plants
three entries and then completes normally; after the worker's own
`result.append("passed")` the channel the supervisor inspects holds four
entries — refuting "at most one entry", and any fixed bound independent of
the untrusted text. -/
theorem channel_unbounded_cex :
    (workerChannel "result.append(\"a\")\nresult.append(\"b\")\nresult.append(\"c\")"
      ["a", "b", "c"] .ok none).length = 4 := by
  decide

/-- Claim C4 as amended: the channel content is exactly the untrusted
text's planted entries followed by the worker's own handler appends; the
worker itself appends at most two entries (a classified result, optionally
followed by an offending-line diagnostic), so the channel holds at most
plantedCount + 2 entries — unbounded over programs, since the shared locals
let the text plant arbitrarily many — and an empty channel is interpreted as
the timed-out result. -/
theorem channel_at_most_two (code : String) (planted : List String) (outcome : ExecOutcome)
    (fate : Option Nat) :
    resultOf (unsafe_execute code planted outcome) =
      planted ++ harnessAppends (unsafe_execute code planted outcome) ∧
    (harnessAppends (unsafe_execute code planted outcome)).length ≤ 2 ∧
    (workerChannel code planted outcome fate).length ≤ planted.length + 2 ∧
    (workerChannel code planted outcome fate = [] →
      (check_correctness code planted outcome fate).result = ["timed out"]) := by
  have hdec := resultOf_decomp code planted outcome
  have hlen2 := harnessAppends_length code planted outcome
  have hfull : (resultOf (unsafe_execute code planted outcome)).length ≤ planted.length + 2 := by
    rw [hdec, List.length_append]
    omega
  refine ⟨hdec, hlen2, ?_, ?_⟩
  · cases fate with
    | none => exact hfull
    | some k =>
      have h1 := List.length_take k (resultOf (unsafe_execute code planted outcome))
      simp only [workerChannel]
      omega
  · intro h
    simp [check_correctness, h]

/-- Witness for C4's amended theorem at a concrete input whose channel is
empty (a `BaseException` escaped, nothing was appended or planted): the
supervisor reports the timed-out result. -/
theorem channel_at_most_two_witness :
    (check_correctness "raise SystemExit" [] .baseError none).result = ["timed out"] :=
  (channel_at_most_two _ _ _ _).2.2.2 (by decide)

/-- Claim C5 counterexample: the program `result.append("passed")` followed
by `1/0` plants `passed` on the channel through `exec`'s shared locals and
then raises `ZeroDivisionError` at line 2; the run is classified Failed (the
failure message is on the channel) yet `result[0] == "passed"` holds, so
`check_correctness` returns `true` for a Failed run — refuting "returns
false for every Failed result". -/
theorem verdict_true_for_failed_cex :
    (check_correctness "result.append(\"passed\")\n1/0" ["passed"]
      (.runtimeError "ZeroDivisionError" 2 "division by zero") none).verdict = true ∧
    failedMsg "ZeroDivisionError" 2 "division by zero" ∈
      workerChannel "result.append(\"passed\")\n1/0" ["passed"]
        (.runtimeError "ZeroDivisionError" 2 "division by zero") none :=
  ⟨by decide, by decide⟩

/-- Claim C5 as amended: provided the untrusted text performs no writes of
its own to the result channel during `exec` (`planted = []`),
`check_correctness` returns `true` exactly when the produced result is
`Passed` (the worker appended `"passed"`), and returns `false` whenever
`exec` did not complete normally — every `Failed` classification and the
empty-channel `TimedOut` case.  Without that proviso the claim fails: see
the counterexample. -/
theorem verdict_iff_passed (code : String) (outcome : ExecOutcome) (fate : Option Nat) :
    (((check_correctness code [] outcome fate).verdict = true) ↔
      "passed" ∈ workerChannel code [] outcome fate) ∧
    (outcome ≠ ExecOutcome.ok → (check_correctness code [] outcome fate).verdict = false) := by
  have hiff : ((check_correctness code [] outcome fate).verdict = true) ↔
      "passed" ∈ workerChannel code [] outcome fate := by
    have := verdict_spec (workerChannel code [] outcome fate) (channel_head code outcome fate)
    simpa [check_correctness] using this
  refine ⟨hiff, fun hno => ?_⟩
  have hne : ∀ s ∈ resultOf (unsafe_execute code [] outcome), s ≠ "passed" := by
    rcases resultOf_shape code outcome with hpass | h
    · exfalso
      apply hno
      cases outcome with
      | ok => rfl
      | syntaxError c n m =>
        cases h2 : pyIndex (pyLines code) (n - 1) <;>
          simp [unsafe_execute, resultOf, h2] at hpass <;>
          first
            | exact absurd hpass (failedMsg_ne_passed c n m)
            | exact absurd hpass.1 (failedMsg_ne_passed c n m)
      | runtimeError c n d =>
        by_cases hle : n ≤ ((pyLines code).length : Int)
        · cases h2 : pyIndex (pyLines code) (n - 1) <;>
            simp [unsafe_execute, resultOf, h2, hle] at hpass <;>
            first
              | exact absurd hpass (failedMsg_ne_passed c n d)
              | exact absurd hpass.1 (failedMsg_ne_passed c n d)
        · simp [unsafe_execute, resultOf, hle] at hpass
          first
            | exact absurd hpass (failedMsg_ne_passed c n d)
            | exact absurd hpass.1 (failedMsg_ne_passed c n d)
      | baseError => simp [unsafe_execute, resultOf] at hpass
    · exact h
  cases hv : (check_correctness code [] outcome fate).verdict with
  | false => rfl
  | true =>
    exfalso
    have hmem := hiff.mp hv
    exact hne _ (channel_sub code [] outcome fate _ hmem) rfl

/-- Witness for C5's amended theorem at a concrete failing input: a
division-by-zero run makes `check_correctness` return `false`. -/
theorem verdict_iff_passed_witness :
    (check_correctness "x = 10/0" [] (.runtimeError "ZeroDivisionError" 1 "division by zero") none).verdict = false :=
  (verdict_iff_passed _ _ _).2 (by decide)

/-- Claim C6: while the output suppressor is active every read attempt on
standard input fails with the I/O error (`read`, `readline`, `readlines` all
raise `OSError` and the stream reports itself unreadable), writes are
accepted and absorbed into the in-memory buffer, the body of `swallow_io`
runs with all three channels pointing at that buffer, the original channels
are restored on scope exit whatever the body did, and a failure signalled by
the body propagates. -/
theorem swallow_io_contract (s : WriteOnlyStringIO) (t : String) (c : Chans)
    (body : Chans → Chans × Bool) :
    s.read = .error .oserror ∧
    s.readline = .error .oserror ∧
    s.readlines = .error .oserror ∧
    s.readable = false ∧
    (s.write t).1.buffer = s.buffer ++ t ∧
    swallow_io_run c body = (c, (body ⟨.buffer, .buffer, .buffer⟩).2) :=
  ⟨rfl, rfl, rfl, rfl, rfl, rfl⟩

/-- Claim C7: `create_tempdir` creates the fresh uniquely named directory,
runs its body with the current directory moved there and the directory
existing, and on every scope exit — success or failure alike, the exception
flag passing through — the directory no longer exists and the original
current directory is restored; and the `chdir` component given the sentinel
path `"."` performs no change and no restore at all. -/
theorem create_tempdir_contract (fresh : String) (st : FS) (body : String → FS → FS × Bool)
    (hdot : fresh ≠ ".") (hfresh : st.dirExists fresh = false) :
    (create_tempdir_run fresh st body).1.cwd = st.cwd ∧
    (create_tempdir_run fresh st body).1.dirExists fresh = false ∧
    create_tempdir_run fresh st body =
      ({ cwd := st.cwd,
         dirExists := fun d => if d = fresh then false else
           (body fresh ⟨fresh, fun d2 => if d2 = fresh then true else st.dirExists d2⟩).1.dirExists d },
       (body fresh ⟨fresh, fun d2 => if d2 = fresh then true else st.dirExists d2⟩).2) ∧
    (∀ st2 b2, chdir_run "." st2 b2 = b2 st2) := by
  refine ⟨?_, ?_, ?_, fun st2 b2 => by simp [chdir_run]⟩ <;>
    simp [create_tempdir_run, temporaryDirectory_run, chdir_run, hdot]

/-- Witness for C7 at a concrete fresh directory, starting state and body
(one that moves the current directory and signals an exception). -/
theorem create_tempdir_contract_witness :
    ("/tmp/tmpabc123" : String) ≠ "." ∧
    sampleFS.dirExists "/tmp/tmpabc123" = false ∧
    (create_tempdir_run "/tmp/tmpabc123" sampleFS sampleBody).1.cwd = sampleFS.cwd :=
  ⟨by decide, rfl,
    (create_tempdir_contract "/tmp/tmpabc123" sampleFS sampleBody (by decide) rfl).1⟩

/-- Claim C8 counterexample: the untrusted three-line program
`err = SyntaxError("boom")` / `err.lineno = 0` / `raise err` makes the
handler see a reported line number 0, which lies outside the text's line
count (lines are 1-based, the text has 3 lines) — yet the offending-line
entry is included, carrying the text's *last* line, because
`code.split('\n')[0 - 1]` indexes from the back in Python.  The claim says it
should be omitted. -/
theorem offending_line_wrap_cex :
    (0 : Int) < 1 ∧
    (pyLines "err = SyntaxError(\"boom\")\nerr.lineno = 0\nraise err").length = 3 ∧
    offendingMsg "raise err" ∈
      resultOf (unsafe_execute "err = SyntaxError(\"boom\")\nerr.lineno = 0\nraise err" []
        (.syntaxError "SyntaxError" 0 "boom")) :=
  ⟨by decide, by decide, by decide⟩

/-- Claim C8 as amended (stated for runs in which the untrusted text
planted nothing on the channel): when the reported line number is between 1
and the line count, the offending source line (0-based index lineNumber−1)
is included for both the syntax-error and the runtime-error classification;
when it exceeds the line count no offending-line entry appears in either
branch — though in the syntax-error branch this happens because the
unguarded indexing raises an uncaught `IndexError` rather than by a range
check; and for line numbers ≤ 0 Python's negative indexing can include a
line counted from the end (the counterexample). -/
theorem offending_line_range (code : String) (cls : String) (ln : Int) (detail : String) :
    (1 ≤ ln → ln ≤ ((pyLines code).length : Int) →
      ∃ line, pyIndex (pyLines code) (ln - 1) = some line ∧
        offendingMsg line ∈ resultOf (unsafe_execute code [] (.syntaxError cls ln detail)) ∧
        offendingMsg line ∈ resultOf (unsafe_execute code [] (.runtimeError cls ln detail))) ∧
    (((pyLines code).length : Int) < ln →
      (∀ l, offendingMsg l ∉ resultOf (unsafe_execute code [] (.syntaxError cls ln detail))) ∧
      (∀ l, offendingMsg l ∉ resultOf (unsafe_execute code [] (.runtimeError cls ln detail))) ∧
      (unsafe_execute code [] (.syntaxError cls ln detail)).uncaught = true) := by
  constructor
  · intro h1 h2
    obtain ⟨line, hpy⟩ := pyIndex_in_range (pyLines code) ln h1 h2
    refine ⟨line, hpy, ?_, ?_⟩
    · simp [unsafe_execute, resultOf, hpy]
    · simp [unsafe_execute, resultOf, hpy, h2]
  · intro hgt
    have hpy := pyIndex_above_range (pyLines code) ln hgt
    have hle : ¬ (ln ≤ ((pyLines code).length : Int)) := by omega
    refine ⟨?_, ?_, ?_⟩
    · intro l
      simp [unsafe_execute, resultOf, hpy]
      exact fun he => failedMsg_ne_offendingMsg cls ln detail l he.symm
    · intro l
      simp [unsafe_execute, resultOf, hle]
      exact fun he => failedMsg_ne_offendingMsg cls ln detail l he.symm
    · simp [unsafe_execute, hpy]

/-- Witness for C8's amended theorem at a concrete in-range input: the
single-line division-by-zero program reports line 1 and its source line is
included in the result. -/
theorem offending_line_range_witness :
    offendingMsg "x = 10/0" ∈
      resultOf (unsafe_execute "x = 10/0" [] (.runtimeError "ZeroDivisionError" 1 "division by zero")) := by
  obtain ⟨line, hpy, hsyn, hrun⟩ :=
    (offending_line_range "x = 10/0" "ZeroDivisionError" 1 "division by zero").1 (by decide) (by decide)
  have h2 : some line = some "x = 10/0" := by rw [← hpy]; decide
  cases h2
  exact hrun

/-- Claim C9 counterexample: the program `raise SystemExit` makes `exec`
raise a `BaseException` that is not an `Exception`, so neither handler of
`unsafe_execute` matches: the error escapes the worker uncaught and nothing
is appended to the result channel — contradicting the claim that every
failure raised while running the untrusted code is caught locally and
converted into a classified result. -/
theorem base_exception_uncaught_cex :
    (unsafe_execute "raise SystemExit" [] .baseError).uncaught = true ∧
    resultOf (unsafe_execute "raise SystemExit" [] .baseError) = [] :=
  ⟨rfl, rfl⟩

/-- Claim C9 as amended (stated for runs in which the untrusted text
planted nothing on the channel): ordinary `Exception`s are caught and
converted — a normal completion appends `passed` with nothing uncaught, a
syntax error whose reported line is within the text is classified with
nothing uncaught, and any runtime `Exception` with reported line ≥ 1 is
classified with the failure message first on the channel — but a
`BaseException` that is not an `Exception` escapes `unsafe_execute`
uncaught, as does the handler's own `IndexError` when a syntax error's
reported line exceeds the line count. -/
theorem exception_catching_policy (code : String) (cls : String) (ln : Int) (detail : String) :
    (unsafe_execute code [] .ok).uncaught = false ∧
    (1 ≤ ln → ln ≤ ((pyLines code).length : Int) →
      (unsafe_execute code [] (.syntaxError cls ln detail)).uncaught = false ∧
      resultOf (unsafe_execute code [] (.syntaxError cls ln detail)) ≠ []) ∧
    (1 ≤ ln →
      (unsafe_execute code [] (.runtimeError cls ln detail)).uncaught = false ∧
      (resultOf (unsafe_execute code [] (.runtimeError cls ln detail))).headD "" =
        failedMsg cls ln detail) ∧
    (((pyLines code).length : Int) < ln →
      (unsafe_execute code [] (.syntaxError cls ln detail)).uncaught = true) ∧
    (unsafe_execute code [] .baseError).uncaught = true := by
  refine ⟨rfl, ?_, ?_, ?_, rfl⟩
  · intro h1 h2
    obtain ⟨line, hpy⟩ := pyIndex_in_range (pyLines code) ln h1 h2
    constructor
    · simp [unsafe_execute, hpy]
    · simp [unsafe_execute, resultOf, hpy]
  · intro h1
    by_cases h2 : ln ≤ ((pyLines code).length : Int)
    · obtain ⟨line, hpy⟩ := pyIndex_in_range (pyLines code) ln h1 h2
      constructor
      · simp [unsafe_execute, hpy, h2]
      · simp [unsafe_execute, resultOf, hpy, h2]
    · constructor
      · simp [unsafe_execute, h2]
      · simp [unsafe_execute, resultOf, h2]
  · intro hgt
    have hpy := pyIndex_above_range (pyLines code) ln hgt
    simp [unsafe_execute, hpy]

/-- Witness for C9's amended theorem at a concrete runtime error: the
division-by-zero run is caught, nothing escapes the worker. -/
theorem exception_catching_policy_witness :
    (unsafe_execute "x = 10/0" [] (.runtimeError "ZeroDivisionError" 1 "division by zero")).uncaught = false :=
  ((exception_catching_policy "x = 10/0" "ZeroDivisionError" 1 "division by zero").2.2.1 (by decide)).1

/-- Claim C10: because `unsafe_execute` calls `exec(code)` with the
enclosing call's own globals and locals rather than a fresh module
namespace, the program text `nestedCallText` — one top-level function `f`
calling its sibling top-level function `g`, planting nothing on the channel
— runs fine as a standalone module but raises `NameError` under the worker
(for any harness module globals not binding `g`), and the induced worker run
is classified as a failure, making `check_correctness` return `false`
instead of `true`. -/
theorem exec_namespace_nameerror (g : NameSpc) (hg : nsLookup g "g" = none) (detail : String) :
    runProgram .freshModule 9 ⟨[], []⟩ nestedCallProgram = .ok () ∧
    runProgram .callerScopes 9 ⟨g, []⟩ nestedCallProgram = .error "NameError" ∧
    resultOf (unsafe_execute nestedCallText [] (.runtimeError "NameError" 5 detail)) =
      [failedMsg "NameError" 5 detail, offendingMsg "    return g()"] ∧
    (check_correctness nestedCallText [] (.runtimeError "NameError" 5 detail) none).verdict = false := by
  have hpy : pyIndex (pyLines nestedCallText) (4 : Int) = some "    return g()" := by decide
  have hle : (5 : Int) ≤ ((pyLines nestedCallText).length : Int) := by decide
  have hres : resultOf (unsafe_execute nestedCallText [] (.runtimeError "NameError" 5 detail)) =
      [failedMsg "NameError" 5 detail, offendingMsg "    return g()"] := by
    simp [unsafe_execute, resultOf, hpy, hle]
  have hg2 : List.find? (fun p => p.1 == "g") g = none := by
    cases hfind : List.find? (fun p => p.1 == "g") g with
    | none => rfl
    | some p => simp [nsLookup, hfind] at hg
  refine ⟨rfl, ?_, hres, ?_⟩
  · simp [nestedCallProgram, runProgram, execStmt, loadName, nsLookup, callFun, hg2, Except.map]
  · have hchan : workerChannel nestedCallText [] (.runtimeError "NameError" 5 detail) none =
        [failedMsg "NameError" 5 detail, offendingMsg "    return g()"] := hres
    simp [check_correctness, hchan]
    exact failedMsg_ne_passed "NameError" 5 detail

/-- Witness for C10 with the harness globals instantiated to a concrete
namespace not binding `g`: the two-scope run of the sibling-call program
fails with `NameError`. -/
theorem exec_namespace_nameerror_witness :
    runProgram .callerScopes 9 ⟨[], []⟩ nestedCallProgram = .error "NameError" :=
  (exec_namespace_nameerror [] (by decide) "boom").2.1

end UtilsExecute
